import Mathlib

/-!
Shallow embedding of neuraxle_tensorflow/tensorflow_v2.py: the
Tensorflow2ModelStep adapter and its TensorflowV2StepSaver.  The external
deep-learning runtime (tensorflow) is modelled as a record of abstract
operations (Framework); the adapter code of the repository is translated
function by function on top of it.  Each operation additionally returns the
list of framework calls it performs, in order, so that ordering claims
(save before strip, loss inside the gradient tape, factory call order)
are statable.
-/

namespace NeuraxleTF

/-- Generic array-like data handed to the adapter by the orchestrator. -/
abbrev DataArr := List Int

/-- A framework tensor, as produced by tf.convert_to_tensor; its contents are
owned by the external runtime and carried here as plain data. -/
abbrev Tensor := List Int

/-- Handle to a model object built by the user model factory. -/
abbrev ModelObj := Nat

/-- Handle to an optimizer object built by the user optimizer factory. -/
abbrev OptimizerObj := Nat

/-- A loss value as computed by the user loss factory. -/
abbrev LossVal := Int

/-- Handle to one trainable variable of a model. -/
abbrev VariableId := Nat

/-- A gradient produced by tape.gradient for one trainable variable. -/
abbrev Gradient := Int

/-- Execution context passed by the neuraxle orchestrator (external
dependency); opaque to this layer, carried as its root path. -/
structure ExecutionContext where
  root : String
deriving DecidableEq

/-- Model of tf.train.Checkpoint(step=tf.Variable(1), optimizer=..., net=...):
it records the tracked step counter, optimizer and model. -/
structure Checkpoint where
  step : Nat
  optimizer : OptimizerObj
  net : ModelObj
deriving DecidableEq

/-- Model of tf.train.CheckpointManager(checkpoint, directory, max_to_keep):
it records the managed checkpoint, the directory it is bound to, and the
retention bound. -/
structure CheckpointManager where
  checkpoint : Checkpoint
  directory : String
  max_to_keep : Nat
deriving DecidableEq

/-- The external framework calls the adapter delegates to.  Their behaviour
is owned by the runtime, so they are parameters of the embedding. -/
structure Framework where
  convert_to_tensor : Option DataArr → Tensor
  call_model : ModelObj → Tensor → Tensor
  trainable_variables : ModelObj → List VariableId
  tape_gradient : LossVal → List VariableId → List Gradient
  apply_gradients : OptimizerObj → List (Gradient × VariableId) → OptimizerObj
  to_numpy : Tensor → DataArr
  latest_checkpoint : CheckpointManager → Option String
  restore : Checkpoint → Option String → Checkpoint

/-- One framework call performed by an adapter operation, recorded in order
of execution. -/
inductive Event where
  | convertToTensor (arg : Option DataArr)
  | tapeOpen
  | modelForward
  | computeLoss
  | tapeClose
  | gradientCall
  | applyGradients (pairs : List (Gradient × VariableId))
  | managerSave (directory : String)
  | stripCalled
  | callOptimizerFactory
  | callModelFactory
  | mkCheckpoint (stepCounter : Nat)
  | mkCheckpointManager (directory : String) (maxToKeep : Nat)
  | restoreCalled (latest : Option String)
deriving DecidableEq

/-- The observable fields of a step that the user factories may close over;
the Python factories receive the adapter object itself, which the embedding
represents by this view of its non-function fields to avoid a type-level
cycle. -/
structure StepView where
  tf_model_checkpoint_folder : String
  is_initialized : Bool
  loss : Option LossVal
deriving DecidableEq

/-- State of a Tensorflow2ModelStep: the three user factories, the
checkpoint folder, the initialization flag, the live framework references
(present only while built), and the last recorded loss. -/
structure Tensorflow2ModelStep where
  create_model : StepView → ModelObj
  create_loss : StepView → Tensor → Tensor → LossVal
  create_optimizer : StepView → OptimizerObj
  tf_model_checkpoint_folder : String
  is_initialized : Bool
  model : Option ModelObj
  optimizer : Option OptimizerObj
  checkpoint : Option Checkpoint
  checkpoint_manager : Option CheckpointManager
  loss : Option LossVal

/-- View of a step as handed to its factories. -/
def Tensorflow2ModelStep.view (s : Tensorflow2ModelStep) : StepView :=
  ⟨s.tf_model_checkpoint_folder, s.is_initialized, s.loss⟩

/-- Constructor, from Tensorflow2ModelStep.__init__: stores the factories
and applies the default checkpoint folder when the argument is None.
Modelled from the spec: the base-class initialisation
(BaseTensorflowModelStep.__init__, not under src/) creates the step
uninitialized, with no live framework references and no recorded loss. -/
def Tensorflow2ModelStep.init
    (create_model : StepView → ModelObj)
    (create_loss : StepView → Tensor → Tensor → LossVal)
    (create_optimizer : StepView → OptimizerObj)
    (tf_model_checkpoint_folder : Option String) : Tensorflow2ModelStep :=
  let folder : String :=
    match tf_model_checkpoint_folder with
    | none => "tensorflow_ckpts"
    | some f => f
  { create_model := create_model
    create_loss := create_loss
    create_optimizer := create_optimizer
    tf_model_checkpoint_folder := folder
    is_initialized := false
    model := none
    optimizer := none
    checkpoint := none
    checkpoint_manager := none
    loss := none }

/-- Tensorflow2ModelStep.setup: if already initialized, return self at once;
otherwise build optimizer then model from the factories, a checkpoint
tracking step counter 1, the optimizer and the model, and a manager bound
to the configured folder with max_to_keep 3, then set the flag. -/
def Tensorflow2ModelStep.setup (s : Tensorflow2ModelStep) :
    Tensorflow2ModelStep × List Event :=
  if s.is_initialized then (s, [])
  else
    let opt := s.create_optimizer s.view
    let mdl := s.create_model s.view
    let ckpt : Checkpoint := ⟨1, opt, mdl⟩
    let mgr : CheckpointManager := ⟨ckpt, s.tf_model_checkpoint_folder, 3⟩
    ({ s with
        optimizer := some opt
        model := some mdl
        checkpoint := some ckpt
        checkpoint_manager := some mgr
        is_initialized := true },
     [Event.callOptimizerFactory, Event.callModelFactory, Event.mkCheckpoint 1,
      Event.mkCheckpointManager s.tf_model_checkpoint_folder 3])

/-- Tensorflow2ModelStep.strip: unconditionally clear the four live
framework references; every other field is untouched. -/
def Tensorflow2ModelStep.strip (s : Tensorflow2ModelStep) :
    Tensorflow2ModelStep × List Event :=
  ({ s with
      optimizer := none
      model := none
      checkpoint := none
      checkpoint_manager := none },
   [Event.stripCalled])

/-- Tensorflow2ModelStep.fit: convert data_inputs and expected_outputs to
tensors (expected_outputs defaults to None in the source and is passed to
the conversion as is), run the model forward and compute the loss inside
the gradient tape, then take gradients and apply one optimizer step with
the positional zip of gradients and trainable variables.  When the live
references are absent the Python call fails at the model call, after the
two conversions; the embedding returns none with the trace up to the
failure. -/
def Tensorflow2ModelStep.fit (F : Framework) (s : Tensorflow2ModelStep)
    (data_inputs : DataArr) (expected_outputs : Option DataArr) :
    Option Tensorflow2ModelStep × List Event :=
  let x := F.convert_to_tensor (some data_inputs)
  let y := F.convert_to_tensor expected_outputs
  let pre := [Event.convertToTensor (some data_inputs),
              Event.convertToTensor expected_outputs]
  match s.model, s.optimizer with
  | some m, some opt =>
    let output := F.call_model m x
    let lossVal := s.create_loss s.view y output
    let vars := F.trainable_variables m
    let pairs := List.zip (F.tape_gradient lossVal vars) vars
    (some { s with loss := some lossVal,
                   optimizer := some (F.apply_gradients opt pairs) },
     pre ++ [Event.tapeOpen, Event.modelForward, Event.computeLoss,
             Event.tapeClose, Event.gradientCall, Event.applyGradients pairs])
  | _, _ => (none, pre)

/-- Tensorflow2ModelStep.transform: forward pass only, result converted back
to a plain array; fails when the model reference is absent.  It does not
change the step state. -/
def Tensorflow2ModelStep.transform (F : Framework) (s : Tensorflow2ModelStep)
    (data_inputs : DataArr) : Option DataArr :=
  match s.model with
  | some m => some (F.to_numpy (F.call_model m (F.convert_to_tensor (some data_inputs))))
  | none => none

/-- TensorflowV2StepSaver.save_step: invoke the checkpoint-manager save,
then strip the step, and return it; fails when the manager reference is
absent (the Python call would fault on None). -/
def TensorflowV2StepSaver.save_step (s : Tensorflow2ModelStep)
    (context : ExecutionContext) : Option (Tensorflow2ModelStep × List Event) :=
  match s.checkpoint_manager with
  | none => none
  | some mgr =>
    let stripped := s.strip
    some (stripped.1, Event.managerSave mgr.directory :: stripped.2)

/-- TensorflowV2StepSaver.load_step: force the flag false, run setup, then
restore the fresh checkpoint from the latest checkpoint of the fresh
manager.  The restore mutates the tracked objects, so the step references
are the restored ones afterwards. -/
def TensorflowV2StepSaver.load_step (F : Framework)
    (s : Tensorflow2ModelStep) (context : ExecutionContext) :
    Option (Tensorflow2ModelStep × List Event) :=
  let s0 := { s with is_initialized := false }
  let built := s0.setup
  match built.1.checkpoint, built.1.checkpoint_manager with
  | some ckpt, some mgr =>
    let latest := F.latest_checkpoint mgr
    let restored := F.restore ckpt latest
    some ({ built.1 with
              checkpoint := some restored
              model := some restored.net
              optimizer := some restored.optimizer },
          built.2 ++ [Event.restoreCalled latest])
  | _, _ => none

/-- TensorflowV2StepSaver.can_load: always true. -/
def TensorflowV2StepSaver.can_load (s : Tensorflow2ModelStep)
    (context : ExecutionContext) : Bool :=
  true

/-- States of a step reachable through the public operations.  transform
and can_load do not change the step, so they induce no transition. -/
inductive Reachable (F : Framework) : Tensorflow2ModelStep → Prop where
  | construct (cm : StepView → ModelObj)
      (cl : StepView → Tensor → Tensor → LossVal)
      (co : StepView → OptimizerObj) (folder : Option String) :
      Reachable F (Tensorflow2ModelStep.init cm cl co folder)
  | setup_ok (s : Tensorflow2ModelStep) :
      Reachable F s → Reachable F s.setup.1
  | strip_ok (s : Tensorflow2ModelStep) :
      Reachable F s → Reachable F s.strip.1
  | fit_ok (s : Tensorflow2ModelStep) (x : DataArr) (y : Option DataArr)
      (s' : Tensorflow2ModelStep) (tr : List Event) :
      Reachable F s → s.fit F x y = (some s', tr) → Reachable F s'
  | save_ok (s : Tensorflow2ModelStep) (c : ExecutionContext)
      (s' : Tensorflow2ModelStep) (tr : List Event) :
      Reachable F s → TensorflowV2StepSaver.save_step s c = some (s', tr) →
      Reachable F s'
  | load_ok (s : Tensorflow2ModelStep) (c : ExecutionContext)
      (s' : Tensorflow2ModelStep) (tr : List Event) :
      Reachable F s → TensorflowV2StepSaver.load_step F s c = some (s', tr) →
      Reachable F s'

/-- Concrete framework instance used to evaluate the embedding on closed
inputs. -/
def demoFramework : Framework :=
  { convert_to_tensor := fun a =>
      match a with
      | none => []
      | some d => d
    call_model := fun m t => t.map (fun v => v + Int.ofNat m)
    trainable_variables := fun m => [m, m + 1]
    tape_gradient := fun l vs => vs.map (fun _ => l)
    apply_gradients := fun o ps => o + ps.length
    to_numpy := fun t => t
    latest_checkpoint := fun mgr => some mgr.directory
    restore := fun c _ => ⟨c.step + 1, c.optimizer, c.net⟩ }

/-- Concrete model factory for evaluation. -/
def demoCreateModel : StepView → ModelObj := fun _ => 7

/-- Concrete loss factory for evaluation. -/
def demoCreateLoss : StepView → Tensor → Tensor → LossVal :=
  fun _ y o => (y.length : Int) - (o.length : Int)

/-- Concrete optimizer factory for evaluation. -/
def demoCreateOptimizer : StepView → OptimizerObj := fun _ => 4

/-- Concrete freshly constructed step. -/
def demoStep : Tensorflow2ModelStep :=
  Tensorflow2ModelStep.init demoCreateModel demoCreateLoss demoCreateOptimizer none

/-- Concrete execution context. -/
def demoCtx : ExecutionContext := ⟨"cache"⟩

/-- The concrete step after setup. -/
def demoInitialized : Tensorflow2ModelStep := demoStep.setup.1

/-- The concrete step after setup followed by save_step: references
cleared, flag still true. -/
def demoHalfStripped : Tensorflow2ModelStep := demoInitialized.strip.1

/-- C8: for every adapter step and every execution context, in every state,
can_load returns true. -/
theorem C8_can_load_always_true (s : Tensorflow2ModelStep)
    (c : ExecutionContext) :
    TensorflowV2StepSaver.can_load s c = true :=
  rfl

/-- C5: strip unconditionally clears the model, optimizer, checkpoint and
checkpoint-manager references and leaves every other field, in particular
the initialization flag, unchanged. -/
theorem C5_strip_clears_refs_frames_rest (s : Tensorflow2ModelStep) :
    s.strip =
      ({ s with
          model := none
          optimizer := none
          checkpoint := none
          checkpoint_manager := none }, [Event.stripCalled]) ∧
    s.strip.1.model = none ∧
    s.strip.1.optimizer = none ∧
    s.strip.1.checkpoint = none ∧
    s.strip.1.checkpoint_manager = none ∧
    s.strip.1.is_initialized = s.is_initialized ∧
    s.strip.1.loss = s.loss ∧
    s.strip.1.tf_model_checkpoint_folder = s.tf_model_checkpoint_folder ∧
    s.strip.1.create_model = s.create_model ∧
    s.strip.1.create_loss = s.create_loss ∧
    s.strip.1.create_optimizer = s.create_optimizer :=
  ⟨rfl, rfl, rfl, rfl, rfl, rfl, rfl, rfl, rfl, rfl, rfl⟩

/-- C3: setup is idempotent: on an already-initialized step it returns the
step at once with no state change and no framework call, and a second
setup right after a first one is such a no-op, so two successive calls
produce the same observable state as one. -/
theorem C3_setup_idempotent (s : Tensorflow2ModelStep) :
    (s.is_initialized = true → s.setup = (s, [])) ∧
    s.setup.1.setup = (s.setup.1, []) := by
  constructor
  · intro h
    simp [Tensorflow2ModelStep.setup, h]
  · by_cases h : s.is_initialized
    · simp [Tensorflow2ModelStep.setup, h]
    · simp [Tensorflow2ModelStep.setup, h]

/-- C3 witness: the idempotence theorem applied to concrete steps. -/
theorem C3_setup_idempotent_witness :
    demoInitialized.setup = (demoInitialized, []) ∧
    demoStep.setup.1.setup = (demoStep.setup.1, []) :=
  ⟨(C3_setup_idempotent demoInitialized).1 rfl,
   (C3_setup_idempotent demoStep).2⟩

/-- C4: on an uninitialized step, setup invokes the optimizer factory
first, then the model factory, each on the adapter (its observable view),
builds a checkpoint tracking step counter 1, the optimizer and the model,
then a manager bound to the configured folder with max_to_keep 3, sets the
flag true, and returns the step with all other fields unchanged. -/
theorem C4_setup_builds (s : Tensorflow2ModelStep)
    (h : s.is_initialized = false) :
    s.setup =
      ({ s with
          optimizer := some (s.create_optimizer s.view)
          model := some (s.create_model s.view)
          checkpoint :=
            some ⟨1, s.create_optimizer s.view, s.create_model s.view⟩
          checkpoint_manager :=
            some ⟨⟨1, s.create_optimizer s.view, s.create_model s.view⟩,
                  s.tf_model_checkpoint_folder, 3⟩
          is_initialized := true },
       [Event.callOptimizerFactory, Event.callModelFactory,
        Event.mkCheckpoint 1,
        Event.mkCheckpointManager s.tf_model_checkpoint_folder 3]) := by
  simp [Tensorflow2ModelStep.setup, h]

/-- C4 witness: the setup theorem evaluated on the concrete fresh step. -/
theorem C4_setup_builds_witness :
    demoStep.setup =
      ({ demoStep with
          optimizer := some (demoStep.create_optimizer demoStep.view)
          model := some (demoStep.create_model demoStep.view)
          checkpoint :=
            some ⟨1, demoStep.create_optimizer demoStep.view,
                  demoStep.create_model demoStep.view⟩
          checkpoint_manager :=
            some ⟨⟨1, demoStep.create_optimizer demoStep.view,
                   demoStep.create_model demoStep.view⟩,
                  demoStep.tf_model_checkpoint_folder, 3⟩
          is_initialized := true },
       [Event.callOptimizerFactory, Event.callModelFactory,
        Event.mkCheckpoint 1,
        Event.mkCheckpointManager demoStep.tf_model_checkpoint_folder 3]) :=
  C4_setup_builds demoStep rfl

/-- C9: the checkpoint folder is configurable at construction; when the
argument is omitted (None) it defaults to the fixed relative name
tensorflow_ckpts, and that folder is the directory the checkpoint-manager
is bound to by setup. -/
theorem C9_checkpoint_folder_default
    (cm : StepView → ModelObj)
    (cl : StepView → Tensor → Tensor → LossVal)
    (co : StepView → OptimizerObj) :
    (Tensorflow2ModelStep.init cm cl co none).tf_model_checkpoint_folder =
      "tensorflow_ckpts" ∧
    (∀ f : String,
      (Tensorflow2ModelStep.init cm cl co (some f)).tf_model_checkpoint_folder
        = f) ∧
    (∀ folder : Option String,
      ∃ mgr : CheckpointManager,
        (Tensorflow2ModelStep.init cm cl co folder).setup.1.checkpoint_manager
            = some mgr ∧
          mgr.directory =
            (Tensorflow2ModelStep.init cm cl co folder).tf_model_checkpoint_folder) ∧
    ∃ mgr : CheckpointManager,
      (Tensorflow2ModelStep.init cm cl co none).setup.1.checkpoint_manager
          = some mgr ∧
        mgr.directory = "tensorflow_ckpts" := by
  refine ⟨rfl, fun f => rfl, fun folder => ?_, ?_⟩
  · exact ⟨⟨⟨1, co (Tensorflow2ModelStep.init cm cl co folder).view,
             cm (Tensorflow2ModelStep.init cm cl co folder).view⟩,
            (Tensorflow2ModelStep.init cm cl co folder).tf_model_checkpoint_folder,
            3⟩, rfl, rfl⟩
  · exact ⟨⟨⟨1, co (Tensorflow2ModelStep.init cm cl co none).view,
             cm (Tensorflow2ModelStep.init cm cl co none).view⟩,
            "tensorflow_ckpts", 3⟩, rfl, rfl⟩

/-- C1: on an initialized step, save_step performs the checkpoint-manager
save first, then strip, and returns the stripped step; afterwards the four
live references are cleared while the initialization flag is still true. -/
theorem C1_save_step_saves_then_strips (s : Tensorflow2ModelStep)
    (c : ExecutionContext) (mgr : CheckpointManager)
    (hinit : s.is_initialized = true)
    (hmgr : s.checkpoint_manager = some mgr) :
    TensorflowV2StepSaver.save_step s c =
      some (s.strip.1, [Event.managerSave mgr.directory, Event.stripCalled]) ∧
    s.strip.1.model = none ∧
    s.strip.1.optimizer = none ∧
    s.strip.1.checkpoint = none ∧
    s.strip.1.checkpoint_manager = none ∧
    s.strip.1.is_initialized = true := by
  refine ⟨?_, rfl, rfl, rfl, rfl, hinit⟩
  simp [TensorflowV2StepSaver.save_step, hmgr, Tensorflow2ModelStep.strip]

/-- C1 witness: the save_step theorem evaluated on the concrete initialized
step. -/
theorem C1_save_step_witness :
    TensorflowV2StepSaver.save_step demoInitialized demoCtx =
      some (demoInitialized.strip.1,
            [Event.managerSave "tensorflow_ckpts", Event.stripCalled]) ∧
    demoInitialized.strip.1.model = none ∧
    demoInitialized.strip.1.optimizer = none ∧
    demoInitialized.strip.1.checkpoint = none ∧
    demoInitialized.strip.1.checkpoint_manager = none ∧
    demoInitialized.strip.1.is_initialized = true :=
  C1_save_step_saves_then_strips demoInitialized demoCtx
    ⟨⟨1, 4, 7⟩, "tensorflow_ckpts", 3⟩ rfl rfl

/-- C2: load_step forces the flag false, reruns setup so that fresh
optimizer, model, checkpoint and manager are rebuilt from the factories
(which see the flag as false), restores the checkpoint from the latest
checkpoint of the manager, and returns the step, which is initialized. -/
theorem C2_load_step_rebuilds_and_restores (F : Framework)
    (s : Tensorflow2ModelStep) (c : ExecutionContext) :
    let freshView : StepView := ⟨s.tf_model_checkpoint_folder, false, s.loss⟩
    let ckpt : Checkpoint :=
      ⟨1, s.create_optimizer freshView, s.create_model freshView⟩
    let mgr : CheckpointManager := ⟨ckpt, s.tf_model_checkpoint_folder, 3⟩
    let restored := F.restore ckpt (F.latest_checkpoint mgr)
    TensorflowV2StepSaver.load_step F s c =
      some ({ s with
                is_initialized := true
                model := some restored.net
                optimizer := some restored.optimizer
                checkpoint := some restored
                checkpoint_manager := some mgr },
            [Event.callOptimizerFactory, Event.callModelFactory,
             Event.mkCheckpoint 1,
             Event.mkCheckpointManager s.tf_model_checkpoint_folder 3,
             Event.restoreCalled (F.latest_checkpoint mgr)]) ∧
    (TensorflowV2StepSaver.load_step F s c).map
        (fun p => p.1.is_initialized) = some true := by
  exact ⟨rfl, rfl⟩

/-- C7: on an initialized step, fit converts the inputs, computes the loss
inside the gradient tape, then outside the tape takes the gradients of the
recorded loss with respect to every trainable variable and applies exactly
one optimizer step with the positional (gradient, variable) pairing, and
returns the step with its loss field set to the new loss and every other
field except the optimizer unchanged. -/
theorem C7_fit_one_positional_optimizer_step (F : Framework)
    (s : Tensorflow2ModelStep) (x y : DataArr)
    (m : ModelObj) (o : OptimizerObj)
    (hm : s.model = some m) (ho : s.optimizer = some o) :
    let lossVal := s.create_loss s.view (F.convert_to_tensor (some y))
      (F.call_model m (F.convert_to_tensor (some x)))
    let vars := F.trainable_variables m
    let pairs := List.zip (F.tape_gradient lossVal vars) vars
    s.fit F x (some y) =
      (some { s with
                loss := some lossVal
                optimizer := some (F.apply_gradients o pairs) },
       [Event.convertToTensor (some x), Event.convertToTensor (some y),
        Event.tapeOpen, Event.modelForward, Event.computeLoss,
        Event.tapeClose, Event.gradientCall,
        Event.applyGradients pairs]) ∧
    (s.fit F x (some y)).2.countP
        (fun e => match e with
          | Event.applyGradients _ => true
          | _ => false) = 1 := by
  refine ⟨?_, ?_⟩ <;>
    simp [Tensorflow2ModelStep.fit, hm, ho, List.countP, List.countP.go]

/-- C7 witness: the fit theorem evaluated on the concrete initialized step
and concrete data. -/
theorem C7_fit_witness :
    (let lossVal := demoInitialized.create_loss demoInitialized.view
      (demoFramework.convert_to_tensor (some [3]))
      (demoFramework.call_model 7 (demoFramework.convert_to_tensor (some [1, 2])))
     let vars := demoFramework.trainable_variables 7
     let pairs := List.zip (demoFramework.tape_gradient lossVal vars) vars
     demoInitialized.fit demoFramework [1, 2] (some [3]) =
      (some { demoInitialized with
                loss := some lossVal
                optimizer := some (demoFramework.apply_gradients 4 pairs) },
       [Event.convertToTensor (some [1, 2]), Event.convertToTensor (some [3]),
        Event.tapeOpen, Event.modelForward, Event.computeLoss,
        Event.tapeClose, Event.gradientCall,
        Event.applyGradients pairs]) ∧
    (demoInitialized.fit demoFramework [1, 2] (some [3])).2.countP
        (fun e => match e with
          | Event.applyGradients _ => true
          | _ => false) = 1) :=
  C7_fit_one_positional_optimizer_step demoFramework demoInitialized
    [1, 2] [3] 7 4 rfl rfl

/-- C10: fit has no guard for a missing target: with expected_outputs None
the None value is handed to the tensor conversion as is, as the second
framework call, before any forward pass, and when the step is initialized
the loss is computed against the conversion of None, with no default
substituted. -/
theorem C10_fit_passes_none_target (F : Framework)
    (s : Tensorflow2ModelStep) (x : DataArr) :
    (s.fit F x none).2.take 2 =
      [Event.convertToTensor (some x), Event.convertToTensor none] ∧
    Event.modelForward ∉ (s.fit F x none).2.take 2 ∧
    (∀ m o, s.model = some m → s.optimizer = some o →
      ∃ st, (s.fit F x none).1 = some st ∧
        st.loss = some (s.create_loss s.view (F.convert_to_tensor none)
          (F.call_model m (F.convert_to_tensor (some x))))) := by
  refine ⟨?_, ?_, ?_⟩
  · rcases hm : s.model with _ | m <;> rcases ho : s.optimizer with _ | o <;>
      simp [Tensorflow2ModelStep.fit, hm, ho]
  · rcases hm : s.model with _ | m <;> rcases ho : s.optimizer with _ | o <;>
      simp [Tensorflow2ModelStep.fit, hm, ho]
  · intro m o hm ho
    refine ⟨{ s with
                optimizer := some (F.apply_gradients o
                  (List.zip
                    (F.tape_gradient
                      (s.create_loss s.view (F.convert_to_tensor none)
                        (F.call_model m (F.convert_to_tensor (some x))))
                      (F.trainable_variables m))
                    (F.trainable_variables m)))
                loss := some (s.create_loss s.view (F.convert_to_tensor none)
                  (F.call_model m (F.convert_to_tensor (some x)))) },
            ?_, rfl⟩
    simp [Tensorflow2ModelStep.fit, hm, ho]

/-- C10 witness: the theorem evaluated on the concrete initialized step. -/
theorem C10_fit_passes_none_target_witness :
    (demoInitialized.fit demoFramework [5] none).2.take 2 =
      [Event.convertToTensor (some [5]), Event.convertToTensor none] ∧
    ∃ st, (demoInitialized.fit demoFramework [5] none).1 = some st ∧
      st.loss = some (demoInitialized.create_loss demoInitialized.view
        (demoFramework.convert_to_tensor none)
        (demoFramework.call_model 7 (demoFramework.convert_to_tensor (some [5])))) :=
  ⟨(C10_fit_passes_none_target demoFramework demoInitialized [5]).1,
   (C10_fit_passes_none_target demoFramework demoInitialized [5]).2.2
      7 4 rfl rfl⟩

/-- C6 counterexample: the state reached by construction, setup and then
save_step has its initialization flag true while all four live references
are cleared, so the claimed two-sided invariant fails on a reachable
state. -/
theorem C6_invariant_counterexample :
    Reachable demoFramework demoHalfStripped ∧
    demoHalfStripped.is_initialized = true ∧
    demoHalfStripped.model = none ∧
    demoHalfStripped.optimizer = none ∧
    demoHalfStripped.checkpoint = none ∧
    demoHalfStripped.checkpoint_manager = none ∧
    ¬(demoHalfStripped.model.isSome = true ↔
        demoHalfStripped.is_initialized = true) := by
  refine ⟨?_, rfl, rfl, rfl, rfl, rfl, by decide⟩
  have h0 : Reachable demoFramework demoStep :=
    Reachable.construct demoCreateModel demoCreateLoss demoCreateOptimizer none
  have h1 : Reachable demoFramework demoInitialized :=
    Reachable.setup_ok demoStep h0
  exact Reachable.save_ok demoInitialized demoCtx demoHalfStripped
    [Event.managerSave "tensorflow_ckpts", Event.stripCalled] h1 rfl

/-- C6 amended: in every reachable state, each live reference (model,
optimizer, checkpoint, checkpoint-manager) is non-null only if the
initialization flag is true; the converse direction fails in the
half-state left by save_step and strip, where the flag stays true with
the references cleared. -/
theorem C6_amended_refs_imply_flag (F : Framework)
    (s : Tensorflow2ModelStep) (h : Reachable F s) :
    (s.model.isSome = true → s.is_initialized = true) ∧
    (s.optimizer.isSome = true → s.is_initialized = true) ∧
    (s.checkpoint.isSome = true → s.is_initialized = true) ∧
    (s.checkpoint_manager.isSome = true → s.is_initialized = true) := by
  induction h with
  | construct cm cl co folder =>
      simp [Tensorflow2ModelStep.init]
  | setup_ok s hr ih =>
      by_cases hi : s.is_initialized
      · simp [Tensorflow2ModelStep.setup, hi]
      · simp [Tensorflow2ModelStep.setup, hi]
  | strip_ok s hr ih =>
      simp [Tensorflow2ModelStep.strip]
  | fit_ok s x y s' tr hr hfit ih =>
      rcases hm : s.model with _ | m <;> rcases ho : s.optimizer with _ | o <;>
        simp [Tensorflow2ModelStep.fit, hm, ho] at hfit
      rcases hfit with ⟨hs', htr⟩
      have hflag : s.is_initialized = true := ih.1 (by simp [hm])
      subst hs'
      simp [hflag, hm]
  | save_ok s c s' tr hr hsave ih =>
      rcases hmgr : s.checkpoint_manager with _ | mgr <;>
        simp [TensorflowV2StepSaver.save_step, hmgr,
          Tensorflow2ModelStep.strip] at hsave
      rcases hsave with ⟨hs', htr⟩
      subst hs'
      simp
  | load_ok s c s' tr hr hload ih =>
      simp [TensorflowV2StepSaver.load_step, Tensorflow2ModelStep.setup]
        at hload
      rcases hload with ⟨hs', htr⟩
      subst hs'
      simp

/-- C6 amended witness: the amended invariant applied to a concrete
reachable state. -/
theorem C6_amended_refs_imply_flag_witness :
    (demoInitialized.model.isSome = true →
      demoInitialized.is_initialized = true) ∧
    (demoInitialized.optimizer.isSome = true →
      demoInitialized.is_initialized = true) ∧
    (demoInitialized.checkpoint.isSome = true →
      demoInitialized.is_initialized = true) ∧
    (demoInitialized.checkpoint_manager.isSome = true →
      demoInitialized.is_initialized = true) :=
  C6_amended_refs_imply_flag demoFramework demoInitialized
    (Reachable.setup_ok demoStep
      (Reachable.construct demoCreateModel demoCreateLoss
        demoCreateOptimizer none))

end NeuraxleTF
